import Mathlib

/-!
Verification of the enterprise-tools CLI clients (jira-cli.py, gitlab-cli.py,
confluence-cli.py, slack-cli.py) against their specification.

Python strings are embedded as lists of characters (`Str`), so that every
operation is an executable Lean function that the kernel can evaluate on
concrete inputs.  Network traffic is made explicit: each embedded operation
that performs HTTP calls takes the (already decoded) remote response as a
parameter and reports how many network requests it issued, or the list of
request bodies it sent, alongside its result.  Process termination via
`sys.exit` is modelled as an error value carried up to the caller.
-/

/-- Python strings, embedded as lists of characters. -/
abbrev Str := List Char

/-- ASCII lowercasing of a single character.  This is what Python's
`str.lower` does on the character sets occurring in this repository
(ASCII letters plus Korean, which has no case and is left unchanged). -/
def lowerChar : Char → Char
  | 'A' => 'a' | 'B' => 'b' | 'C' => 'c' | 'D' => 'd' | 'E' => 'e' | 'F' => 'f'
  | 'G' => 'g' | 'H' => 'h' | 'I' => 'i' | 'J' => 'j' | 'K' => 'k' | 'L' => 'l'
  | 'M' => 'm' | 'N' => 'n' | 'O' => 'o' | 'P' => 'p' | 'Q' => 'q' | 'R' => 'r'
  | 'S' => 's' | 'T' => 't' | 'U' => 'u' | 'V' => 'v' | 'W' => 'w' | 'X' => 'x'
  | 'Y' => 'y' | 'Z' => 'z'
  | c => c

/-- Embedding of Python `s.lower()`. -/
def pyLower (s : Str) : Str := s.map lowerChar

/-- Python truthiness of an optional string: `None` and the empty string
are falsy, every other string is truthy. -/
def truthy : Option Str → Bool
  | none => false
  | some s => !s.isEmpty

/-- Embedding of Python `s.strip()` (whitespace removed from both ends). -/
def pyStrip (s : Str) : Str :=
  ((s.dropWhile Char.isWhitespace).reverse.dropWhile Char.isWhitespace).reverse

/-- Embedding of Python `s.strip(chars)` for an explicit character set. -/
def pyStripChars (cs : List Char) (s : Str) : Str :=
  ((s.dropWhile (cs.contains ·)).reverse.dropWhile (cs.contains ·)).reverse

/-- Embedding of the `value.strip('"\x27')` quote stripping used by every
credential loader in this repository. -/
def pyStripQuotes (s : Str) : Str := pyStripChars ['"', '\x27'] s

/-- Embedding of Python `s.rstrip('/')` as applied to base URLs. -/
def pyRstripSlashes (s : Str) : Str := (s.reverse.dropWhile (· = '/')).reverse

/-- Embedding of Python `s.lstrip(c)` for a single character. -/
def pyLstrip (c : Char) (s : Str) : Str := s.dropWhile (· = c)

/-- Embedding of Python `p in s` prefix test `s.startswith(p)`. -/
def pyStartsWith (p s : Str) : Bool := List.isPrefixOf p s

/-- Embedding of Python `s.split(c, 1)`: `none` when `c` does not occur,
otherwise the text before the first occurrence and the rest after it. -/
def pySplitOnce (c : Char) : Str → Option (Str × Str)
  | [] => none
  | x :: xs =>
    if x = c then some ([], xs)
    else
      match pySplitOnce c xs with
      | some (a, b) => some (x :: a, b)
      | none => none

/-- Embedding of Python `sep.join(parts)`. -/
def pyJoin (sep : Str) : List Str → Str
  | [] => []
  | [x] => x
  | x :: xs => x ++ sep ++ pyJoin sep xs

/-- Embedding of Python `s.split(c)` (all occurrences, empty pieces kept). -/
def pySplitChar (c : Char) : Str → List Str
  | [] => [[]]
  | x :: xs =>
    let r := pySplitChar c xs
    if x = c then [] :: r
    else
      match r with
      | h :: t => (x :: h) :: t
      | [] => [[x]]

/-- Embedding of the Python substring operator `needle in hay`. -/
def pySub (needle hay : Str) : Bool := decide (needle <:+: hay)

/- ### CredentialStore: jira-cli.py / gitlab-cli.py load_credentials -/

/-- Environment slice read by jira-cli `load_credentials`: the values of
JIRA_BASE_URL, JIRA_EMAIL and JIRA_API_TOKEN (in that order), `none` when
the variable is unset. -/
structure JiraEnv where
  baseUrl : Option Str
  email : Option Str
  token : Option Str

/-- Resolved Jira credentials as returned by `load_credentials`. -/
structure JiraCreds where
  baseUrl : Str
  email : Str
  token : Str
deriving DecidableEq

/-- Working state of the three credential fields while loading. -/
abbrev JiraFields := Option Str × Option Str × Option Str

/-- Whether all three Jira fields are truthy: Python
`all([base_url, email, token])`. -/
def jiraAll (f : JiraFields) : Bool :=
  truthy f.1 && truthy f.2.1 && truthy f.2.2

/-- One iteration of the config-file loop in jira-cli `load_credentials`:
strip the line, skip it unless it contains `=` and does not start with `#`,
split at the first `=`, strip quotes from the value, and overwrite the
matching field (note: the source overwrites even a field that already has
an environment value). -/
def jiraFileStep (acc : JiraFields) (rawLine : Str) : JiraFields :=
  let line := pyStrip rawLine
  if line.contains '=' && !(pyStartsWith [ '#' ] line) then
    match pySplitOnce '=' line with
    | some (key, value0) =>
      let value := pyStripQuotes value0
      if key = "JIRA_BASE_URL".data then (some value, acc.2.1, acc.2.2)
      else if key = "JIRA_EMAIL".data then (acc.1, some value, acc.2.2)
      else if key = "JIRA_API_TOKEN".data then (acc.1, acc.2.1, some value)
      else acc
    | none => acc
  else acc

/-- The config-file pass: reading an absent file leaves the fields
unchanged, an existing file is folded line by line. -/
def jiraReadFile : Option (List Str) → JiraFields → JiraFields
  | none, s => s
  | some lines, s => lines.foldl jiraFileStep s

/-- Final check of jira-cli `load_credentials`: if some field is still
falsy the process exits 1 with an error, else the base URL loses its
trailing slashes and the triple is returned. -/
def jiraFinish : JiraFields → Except Str JiraCreds
  | (b, e, t) =>
    if jiraAll (b, e, t) then
      .ok ⟨pyRstripSlashes (b.getD []), e.getD [], t.getD []⟩
    else .error "ERROR: Jira credentials not configured.".data

/-- Embedding of jira-cli.py `load_credentials`: read the three
environment variables; only when at least one of them is falsy, fold the
shared config file (when it exists) over the fields; then fail unless all
three fields ended up truthy. -/
def jira_load_credentials (env : JiraEnv) (credFile : Option (List Str)) :
    Except Str JiraCreds :=
  let first : JiraFields := (env.baseUrl, env.email, env.token)
  jiraFinish (if jiraAll first then first else jiraReadFile credFile first)

/-- Environment slice read by gitlab-cli `load_credentials`: GITLAB_BASE_URL
(which has a hard-coded default when unset) and GITLAB_TOKEN. -/
structure GitlabEnv where
  baseUrl : Option Str
  token : Option Str

/-- One iteration of the config-file loop in gitlab-cli `load_credentials`
(same line handling as the Jira loader, with GitLab keys; the base URL from
the environment or the default is likewise overwritten). -/
def gitlabFileStep (acc : Str × Option Str) (rawLine : Str) : Str × Option Str :=
  let line := pyStrip rawLine
  if line.contains '=' && !(pyStartsWith [ '#' ] line) then
    match pySplitOnce '=' line with
    | some (key, value0) =>
      let value := pyStripQuotes value0
      if key = "GITLAB_BASE_URL".data then (value, acc.2)
      else if key = "GITLAB_TOKEN".data then (acc.1, some value)
      else acc
    | none => acc
  else acc

/-- Embedding of gitlab-cli.py `load_credentials`: the base URL defaults to
the public host, the file is read only when the token is falsy, and only
the token is required. -/
def gitlab_load_credentials (env : GitlabEnv) (credFile : Option (List Str)) :
    Except Str (Str × Str) :=
  let base0 := env.baseUrl.getD "https://gitlab.com".data
  let s1 : Str × Option Str :=
    if truthy env.token then (base0, env.token)
    else
      match credFile with
      | none => (base0, env.token)
      | some lines => lines.foldl gitlabFileStep (base0, env.token)
  if truthy s1.2 then .ok (pyRstripSlashes s1.1, s1.2.getD [])
  else .error "ERROR: GitLab credentials not configured.".data

/-- Concrete environment for the C1 counterexample: only JIRA_BASE_URL is
exported. -/
def c1Env : JiraEnv :=
  { baseUrl := some "https://env.example".data, email := none, token := none }

/-- Concrete config file for the C1 counterexample: it defines all three
Jira keys, among them the one the environment already supplies. -/
def c1File : List Str :=
  [ "JIRA_BASE_URL=https://file.example".data
  , "JIRA_EMAIL=a@b.c".data
  , "JIRA_API_TOKEN=tok".data ]

/- ### IdentifierResolver: jira-cli.py user search -/

/-- One user record of the decoded response of the Jira user-search API
(fields may be absent in the JSON). -/
structure JiraApiUser where
  accountId : Option Str
  displayName : Option Str
  emailAddress : Option Str
  active : Option Bool

/-- One user record as shaped by jira-cli `search_users`. -/
structure JiraUserOut where
  accountId : Str
  displayName : Str
  email : Str
  active : Bool
deriving DecidableEq

/-- Embedding of jira-cli.py `search_users`: one GET user-search network
call, whose decoded response `apiUsers` is reshaped with empty-string /
false defaults.  The second component counts the network calls issued
(always exactly one). -/
def search_users (query : Str) (apiUsers : List JiraApiUser) :
    List JiraUserOut × Nat :=
  ( apiUsers.map (fun u =>
      ⟨ u.accountId.getD [], u.displayName.getD []
      , u.emailAddress.getD [], u.active.getD false ⟩)
  , 1 )

/-- Embedding of jira-cli.py `get_user_account_id`: run `search_users` and
return the accountId of the first returned user, or `none` when the list is
empty.  The function keeps no cache of any kind — the module has no mutable
state — so every invocation re-issues the search; the second component
counts the network calls of this one invocation. -/
def get_user_account_id (nameOrEmail : Str) (apiUsers : List JiraApiUser) :
    Option Str × Nat :=
  match search_users nameOrEmail apiUsers with
  | (users, netCalls) =>
    match users with
    | [] => (none, netCalls)
    | u :: _ => (some u.accountId, netCalls)

/-- Two successive resolutions of the same raw input within one process
run, against the same directory listing.  Because the source keeps no
cache, the second invocation is the very same computation again. -/
def resolveSameTwice (q : Str) (apiUsers : List JiraApiUser) :
    (Option Str × Nat) × (Option Str × Nat) :=
  (get_user_account_id q apiUsers, get_user_account_id q apiUsers)

/- ### IdentifierResolver: slack-cli.py resolve_user / resolve_channel -/

/-- One member record of the decoded Slack users.list response (the
fields used by `resolve_user`; `displayName` is profile.display_name). -/
structure SlackMember where
  name : Option Str
  displayName : Option Str
  id : Str

/-- One channel record of the decoded Slack conversations.list response. -/
structure SlackChannel where
  id : Str
  name : Str

/-- Embedding of slack-cli.py `resolve_user`: inputs that already look
like a user ID (leading U, more than 8 characters) are returned unchanged
without any network call; otherwise one users.list call is issued, the `@`
prefix is stripped, and the first member whose name or display name equals
the input wins; no match exits the process.  The second component counts
the network calls of this invocation. -/
def resolve_user (user : Str) (members : List SlackMember) :
    (Except Str Str) × Nat :=
  if pyStartsWith [ 'U' ] user && decide (8 < user.length) then (.ok user, 0)
  else
    let userName := pyLstrip '@' user
    match members.find? (fun u =>
        u.name == some userName || u.displayName == some userName) with
    | some u => (.ok u.id, 1)
    | none =>
      (.error ( "ERROR: User \x27".data ++ user ++ "\x27 not found".data), 1)

/-- Two successive `resolve_user` calls on the same input in one process
run (the source keeps no cache, so the second call repeats the first). -/
def slackResolveUserTwice (user : Str) (members : List SlackMember) :
    ((Except Str Str) × Nat) × ((Except Str Str) × Nat) :=
  (resolve_user user members, resolve_user user members)

/-- Embedding of slack-cli.py `resolve_channel`: inputs that already look
like a channel ID (leading C, more than 8 characters) are returned
unchanged without any network call; otherwise one conversations.list call
is issued, the `#` prefix is stripped, and the first channel with that
exact name wins; no match exits the process. -/
def resolve_channel (channel : Str) (channels : List SlackChannel) :
    (Except Str Str) × Nat :=
  if pyStartsWith [ 'C' ] channel && decide (8 < channel.length) then
    (.ok channel, 0)
  else
    let channelName := pyLstrip '#' channel
    match channels.find? (fun ch => ch.name == channelName) with
    | some ch => (.ok ch.id, 1)
    | none =>
      (.error ( "ERROR: Channel \x27".data ++ channel ++ "\x27 not found".data), 1)

/-- The platform ID shape of claim C8: fixed prefix, alphanumeric body,
more than 8 characters. -/
def idShape (pfx : Char) (s : Str) : Bool :=
  pyStartsWith [ pfx ] s && s.all Char.isAlphanum && decide (8 < s.length)

/- ### WorkflowOrchestrator: slack-cli.py send_message / send_dm -/

/-- Outcome of the slack send pipeline: the business result, the channel
ids targeted by an actual chat.postMessage call (in order), and the user
ids passed to conversations.open. -/
structure SendOutcome where
  result : Except Str Unit
  opens : List Str
  posts : List Str

/-- Embedding of slack-cli.py `send_message`: the channel argument is
first re-resolved through `resolve_channel` (exiting on failure), then one
chat.postMessage call is issued into the resolved id; `postOk` is the `ok`
flag of the decoded response (a false flag exits the process).  The decoded
response body (channel, ts) is not modelled; only success or exit is. -/
def send_message (channel message : Str) (channels : List SlackChannel)
    (postOk : Bool) : SendOutcome :=
  match resolve_channel channel channels with
  | (.error e, _) => { result := .error e, opens := [], posts := [] }
  | (.ok channelId, _) =>
    if postOk then { result := .ok (), opens := [], posts := [channelId] }
    else
      { result := .error "ERROR: postMessage not ok".data
      , opens := [], posts := [channelId] }

/-- Embedding of slack-cli.py `send_dm`: resolve the user, issue one
conversations.open call for that user (whose decoded response carries
`openOk` and, when ok, the opened channel id `openChannelId`), then hand
the opened channel id to `send_message`. -/
def send_dm (user message : Str) (members : List SlackMember)
    (openOk : Bool) (openChannelId : Str) (channels : List SlackChannel)
    (postOk : Bool) : SendOutcome :=
  match resolve_user user members with
  | (.error e, _) => { result := .error e, opens := [], posts := [] }
  | (.ok userId, _) =>
    if openOk then
      let sm := send_message openChannelId message channels postOk
      { result := sm.result, opens := [userId], posts := sm.posts }
    else
      { result := .error "ERROR: conversations.open not ok".data
      , opens := [userId], posts := [] }

/-- Directory listing for the C2 counterexample: one user that matches the
query. -/
def c2Users : List JiraApiUser :=
  [ { accountId := some "acc123".data, displayName := some "Alice Kim".data
    , emailAddress := some "alice@example.com".data, active := some true } ]

/- ### WorkflowOrchestrator: jira-cli.py transitions -/

/-- One transition of the decoded GET transitions response, as shaped by
jira-cli `get_transitions` (both fields are required keys). -/
structure Transition where
  id : Str
  name : Str
deriving DecidableEq

/-- The first-match loop of jira-cli `transition_issue`: scan the fetched
transitions in listing order and take the first whose name equals the
requested name case-insensitively. -/
def findTransition (ts : List Transition) (req : Str) : Option Transition :=
  ts.find? (fun t => pyLower t.name == pyLower req)

/-- The comma-joined list of available transition names, as interpolated
into the unknown-transition error. -/
def availableText (ts : List Transition) : Str :=
  pyJoin ", ".data (ts.map (fun t => t.name))

/-- The exact unknown-transition error text of jira-cli `transition_issue`. -/
def unknownTransitionMsg (req : Str) (ts : List Transition) : Str :=
  "ERROR: Transition \x27".data ++ req ++ "\x27 not found. Available: ".data
    ++ availableText ts

/-- Business result of `transition_issue`: success (the source returns the
issue key and the REQUESTED transition name), the unknown-transition exit,
or an exit on a non-204 POST status. -/
inductive TransResult
  | ok (issue transition : Str)
  | unknown (msg : Str)
  | httpError (status : Nat)
deriving DecidableEq

/-- Outcome of `transition_issue`: result, the transition ids actually
POSTed (in order), and the comments posted after a successful transition. -/
structure TransitionOutcome where
  result : TransResult
  posts : List Str
  comments : List Str
deriving DecidableEq

/-- Embedding of jira-cli.py `transition_issue`: fetch the transitions
(their decoded list is `ts`), match the requested name case-insensitively,
and exit with the unknown-transition message — which interpolates the
comma-joined available names — when no transition matched (Python `if not
transition_id` also catches a matched but empty id).  On a match, POST that
transition id; `postStatus` is the HTTP status of that POST (anything but
204 exits).  Only after a successful POST is the optional comment posted
as a second, independent call (its own success is assumed here). -/
def transition_issue (ts : List Transition) (issueKey req : Str)
    (postStatus : Nat) (comment : Option Str) : TransitionOutcome :=
  match findTransition ts req with
  | none => ⟨.unknown (unknownTransitionMsg req ts), [], []⟩
  | some t =>
    if t.id = [] then ⟨.unknown (unknownTransitionMsg req ts), [], []⟩
    else if postStatus = 204 then
      ⟨.ok issueKey req, [t.id]
      , match comment with | some c => [c] | none => []⟩
    else ⟨.httpError postStatus, [t.id], []⟩

/- ### WorkflowOrchestrator: jira-cli.py clear_resolution -/

/-- The hard-coded reopen alias substrings of jira-cli `clear_resolution`. -/
def reopenAliases : List Str :=
  [ "해야 할 일".data, "진행 중".data, "To Do".data
  , "In Progress".data, "Reopen".data, "Back to".data ]

/-- Whether a lowercased transition name contains one of the (lowercased)
reopen aliases: the inner loop of `clear_resolution`. -/
def nameAlias (lname : Str) : Bool :=
  reopenAliases.any (fun r => pySub (pyLower r) lname)

/-- Whether a transition is picked by the `clear_resolution` scan. -/
def aliasMatches (t : Transition) : Bool := nameAlias (pyLower t.name)

/-- Business result of `clear_resolution`: the success dictionary naming
the executed transition, the no-reopen failure dictionary carrying the full
list of available names, or a process exit inside the nested
`transition_issue` call. -/
inductive ClearRes
  | success (issue transition : Str)
  | noReopen (available : List Str)
  | exited (inner : TransResult)
deriving DecidableEq

/-- Outcome of `clear_resolution`: result plus the transition ids POSTed. -/
structure ClearOutcome where
  res : ClearRes
  posts : List Str
deriving DecidableEq

/-- Embedding of jira-cli.py `clear_resolution`: fetch the transitions,
scan them in listing order for the first whose name contains one of the
reopen aliases case-insensitively, execute it through `transition_issue`
(which fetches the same listing again within the same run) and return the
success dictionary naming it; when no transition matches, return the
failure dictionary with every available name and POST nothing. -/
def clear_resolution (ts : List Transition) (issueKey : Str)
    (postStatus : Nat) : ClearOutcome :=
  match ts.find? aliasMatches with
  | some t =>
    let ti := transition_issue ts issueKey t.name postStatus none
    match ti.result with
    | .ok _ _ => ⟨.success issueKey t.name, ti.posts⟩
    | r => ⟨.exited r, ti.posts⟩
  | none => ⟨.noReopen (ts.map (fun t => t.name)), []⟩

/- ### WorkflowOrchestrator: confluence-cli.py update_page -/

/-- The page record produced by confluence-cli `get_page` from the read
step (version defaults to 1 when the response lacks it — that default is
applied before this record is built). -/
structure ConfluencePage where
  id : Str
  title : Str
  version : Nat
  content : Str

/-- Outcome of `update_page`: the PUT payload fields that matter (title
and version number), the result, and how many reads and writes the
operation performed. -/
structure UpdateOutcome where
  payloadTitle : Str
  payloadVersion : Nat
  result : Except Nat (Str × Nat)
  reads : Nat
  writes : Nat

/-- Embedding of confluence-cli.py `update_page`: one `get_page` read of
the current record, then one PUT whose version number is the current
version plus one and whose title is the argument title when truthy, else
the current title (Python `title or current[title]`).  A non-200 PUT
status exits with that status; there is no re-read and no retry in either
case — the operation performs exactly one read and one write. -/
def update_page (current : ConfluencePage) (pageId content : Str)
    (title : Option Str) (putStatus : Nat) : UpdateOutcome :=
  let newTitle := if truthy title then title.getD [] else current.title
  { payloadTitle := newTitle
  , payloadVersion := current.version + 1
  , result :=
      if putStatus = 200 then .ok (pageId, current.version + 1)
      else .error putStatus
  , reads := 1
  , writes := 1 }

/- ### WorkflowOrchestrator: jira-cli.py create and assign commands -/

/-- The fields object of the create-issue POST payload: a field is `none`
exactly when the source omits it from the JSON. -/
structure CreatePayloadFields where
  project : Str
  issuetype : Str
  summary : Str
  description : Option Str
  labels : Option (List Str)
  assignee : Option Str
deriving DecidableEq

/-- Embedding of the payload construction in jira-cli.py `create_issue`:
description, labels and assignee are only included when truthy; a string
labels argument is split on commas; the assignee value is the resolved
accountId. -/
def create_issue_payload (project issueType summary description : Str)
    (labels : Option Str) (assignee : Option Str) : CreatePayloadFields :=
  { project := project
  , issuetype := issueType
  , summary := summary
  , description := if description ≠ [] then some description else none
  , labels :=
      match labels with
      | some l => if l ≠ [] then some (pySplitChar ',' l) else none
      | none => none
  , assignee :=
      match assignee with
      | some a => if a ≠ [] then some a else none
      | none => none }

/-- The warning jira-cli main prints when a create-time assignee lookup
finds nobody. -/
def createWarnMsg (name : Str) : Str :=
  "WARNING: User \x27".data ++ name
    ++ "\x27 not found, creating without assignee".data

/-- Outcome of the create command branch of jira-cli main: warnings printed
to the diagnostic stream, the create POST payload (`some` exactly when the
create call was attempted), the user-search network calls issued, the epic
link PUTs issued, and the process exit code (0 = success). -/
structure CreateRunOutcome where
  warnings : List Str
  payload : Option CreatePayloadFields
  searchCalls : Nat
  epicLinks : List Str
  exitCode : Nat
deriving DecidableEq

/-- Embedding of the create branch of jira-cli.py `main`: when an assignee
argument is supplied (truthy), resolve it via `get_user_account_id`; a
falsy result downgrades to a warning instead of aborting.  The create call
always runs; a non-2xx create status exits 2.  When an epic argument is
supplied and the created issue has a key, a link PUT follows (non-204
exits 2).  Otherwise the process ends with exit code 0. -/
def main_create (project issueType summary description : Str)
    (labels : Option Str) (assigneeArg : Option Str) (epicArg : Option Str)
    (apiUsers : List JiraApiUser) (createStatus : Nat)
    (createdKey : Option Str) (epicLinkStatus : Nat) : CreateRunOutcome :=
  let step1 : Option Str × Nat × List Str :=
    match assigneeArg with
    | some name =>
      if name ≠ [] then
        match get_user_account_id name apiUsers with
        | (aid, c) =>
          if truthy aid then (aid, c, [])
          else (aid, c, [createWarnMsg name])
      else (none, 0, [])
    | none => (none, 0, [])
  let payload := create_issue_payload project issueType summary description
    labels step1.1
  if createStatus = 200 ∨ createStatus = 201 then
    match epicArg, createdKey with
    | some epic, some key =>
      if epic ≠ [] ∧ key ≠ [] then
        if epicLinkStatus = 204 then
          ⟨step1.2.2, some payload, step1.2.1, [key], 0⟩
        else ⟨step1.2.2, some payload, step1.2.1, [key], 2⟩
      else ⟨step1.2.2, some payload, step1.2.1, [], 0⟩
    | _, _ => ⟨step1.2.2, some payload, step1.2.1, [], 0⟩
  else ⟨step1.2.2, some payload, step1.2.1, [], 2⟩

/-- Outcome of the assign command branch of jira-cli main: the user-search
network calls issued, the assignee PUT bodies sent (`none` is the JSON
null accountId of the unassign path), errors printed, and the exit code. -/
structure AssignRunOutcome where
  searchCalls : Nat
  assignPuts : List (Option Str)
  errors : List Str
  exitCode : Nat
deriving DecidableEq

/-- Embedding of the assign branch of jira-cli.py `main`: a user argument
equal to "none" case-insensitively routes to `unassign_issue`, which PUTs
a null accountId and never resolves anything; any other argument is
resolved via `get_user_account_id`, a falsy result exits 2, and a truthy
accountId is PUT.  Either PUT exits 2 unless its status is 204. -/
def main_assign (issue user : Str) (apiUsers : List JiraApiUser)
    (putStatus : Nat) : AssignRunOutcome :=
  if pyLower user = "none".data then
    if putStatus = 204 then ⟨0, [none], [], 0⟩
    else ⟨0, [none], [], 2⟩
  else
    match get_user_account_id user apiUsers with
    | (aid, c) =>
      if truthy aid then
        if putStatus = 204 then ⟨c, [some (aid.getD [])], [], 0⟩
        else ⟨c, [some (aid.getD [])], [], 2⟩
      else
        ⟨c, [],
          [ "ERROR: User \x27".data ++ user ++ "\x27 not found".data ], 2⟩

/- ### OutputFormatter: jira-cli.py / slack-cli.py format_output -/

/-- One issue record as shaped by jira-cli `search_issues` (a field is
`none` when the dictionary lacks the key; the records the source builds
always carry all four keys, but `format_output` is written defensively). -/
structure JiraIssueRecord where
  key : Option Str
  summary : Option Str
  status : Option Str
  assignee : Option Str
deriving DecidableEq

/-- The list output modes of jira-cli `format_output` embedded here.  The
`full` mode (a verbatim JSON dump) is not embedded: its text is produced by
`json.dumps`, outside this repository. -/
inductive JiraFormat
  | summary
  | table
  | keys
deriving DecidableEq

/-- One summary line of jira-cli `format_output`: shown only for records
carrying a key; the assignee suffix appears only when truthy. -/
def jiraSummaryLine (i : JiraIssueRecord) (k : Str) : Str :=
  k ++ ": ".data ++ i.summary.getD [] ++ " [".data ++ i.status.getD []
    ++ "]".data
    ++ (if truthy i.assignee then " @".data ++ i.assignee.getD [] else [])

/-- The summary lines of a record list (records without a key are
skipped). -/
def jiraSummaryLines (data : List JiraIssueRecord) : List Str :=
  data.filterMap (fun i => i.key.map (fun k => jiraSummaryLine i k))

/-- The summary text: newline-joined lines, or the literal no-results
message when no line was produced. -/
def jiraSummaryText (data : List JiraIssueRecord) : Str :=
  match jiraSummaryLines data with
  | [] => "No results found".data
  | ls => pyJoin [ '\n' ] ls

/-- One table row of jira-cli `format_output` (missing assignee key renders
as a dash; the summary is truncated to 50 characters). -/
def jiraTableRow (i : JiraIssueRecord) : Str :=
  i.key.getD [] ++ [ '\t' ] ++ i.status.getD [] ++ [ '\t' ]
    ++ i.assignee.getD "-".data ++ [ '\t' ] ++ (i.summary.getD []).take 50

/-- Embedding of the list paths of jira-cli.py `format_output`: keys mode
newline-joins the keys of the records that have one (an empty list yields
the empty string); table mode renders header plus rows for a non-empty
list and falls through to the summary code for an empty one; summary mode
renders dense lines or the literal no-results message. -/
def jira_format_output (data : List JiraIssueRecord) : JiraFormat → Str
  | .keys =>
    pyJoin [ '\n' ]
      ((data.filter (fun i => i.key.isSome)).map (fun i => i.key.getD []))
  | .table =>
    if data ≠ [] then
      pyJoin [ '\n' ]
        ( "KEY\tSTATUS\tASSIGNEE\tSUMMARY".data :: data.map jiraTableRow)
    else jiraSummaryText data
  | .summary => jiraSummaryText data

/-- One record as rendered by slack-cli `format_output` (channels carry a
name, messages carry a text; other records are skipped in summary mode). -/
structure SlackRecord where
  id : Option Str
  name : Option Str
  topic : Option Str
  text : Option Str
  user : Option Str
deriving DecidableEq

/-- The list output modes of slack-cli `format_output` embedded here (the
verbatim-JSON `full` mode is again not embedded). -/
inductive SlackFormat
  | summary
  | ids
deriving DecidableEq

/-- One summary line of slack-cli `format_output`: channel lines show the
name and a truncated topic when truthy; message lines show the user
(defaulting to "unknown") and truncated text. -/
def slackSummaryLine (i : SlackRecord) : Option Str :=
  match i.name with
  | some n =>
    some ( [ '#' ] ++ n
      ++ (if truthy i.topic then " - ".data ++ (i.topic.getD []).take 50
          else []))
  | none =>
    match i.text with
    | some t =>
      some ( [ '@' ] ++ i.user.getD "unknown".data ++ ": ".data ++ t.take 100)
    | none => none

/-- Embedding of the list paths of slack-cli.py `format_output`: ids mode
newline-joins the ids of the records that have one (an empty list yields
the empty string); summary mode renders dense lines or the literal
no-results message. -/
def slack_format_output (data : List SlackRecord) : SlackFormat → Str
  | .ids =>
    pyJoin [ '\n' ]
      ((data.filter (fun i => i.id.isSome)).map (fun i => i.id.getD []))
  | .summary =>
    match data.filterMap slackSummaryLine with
    | [] => "No results".data
    | ls => pyJoin [ '\n' ] ls

/- ### Helper lemmas about substrings and joined lists -/

/-- Prepending on the left preserves the substring relation. -/
theorem sub_append_left (n : Str) {l m : Str} (h : l <:+: m) :
    l <:+: n ++ m := by
  obtain ⟨s, t, rfl⟩ := h
  exact ⟨n ++ s, t, by simp⟩

/-- Every member of a list of strings occurs verbatim in their
separator-joined concatenation. -/
theorem pyJoin_sub_of_mem (sep : Str) :
    (l : List Str) → (a : Str) → a ∈ l → a <:+: pyJoin sep l
  | [x], a, h => by
    simp only [List.mem_singleton] at h
    subst h
    exact ⟨[], [], by simp [pyJoin]⟩
  | x :: y :: t, a, h => by
    rcases List.mem_cons.mp h with h1 | h2
    · subst h1
      exact ⟨[], sep ++ pyJoin sep (y :: t), by simp [pyJoin]⟩
    · have ih := pyJoin_sub_of_mem sep (y :: t) a h2
      have h3 := sub_append_left (x ++ sep) ih
      simpa [pyJoin, List.append_assoc] using h3

/-- If the `clear_resolution` scan picks a transition, the case-insensitive
name lookup of `transition_issue` run on that transition name (against the
same fetched listing) finds exactly that transition: an earlier transition
with the same lowercased name would itself have matched the alias scan
first. -/
theorem findTransition_fst (ts : List Transition) (t0 : Transition)
    (h : ts.find? aliasMatches = some t0) :
    findTransition ts t0.name = some t0 := by
  induction ts with
  | nil => simp [List.find?] at h
  | cons a l ih =>
    cases ha : aliasMatches a with
    | true =>
      have h1 : a = t0 := by simpa [List.find?_cons, ha] using h
      subst h1
      simp [findTransition, List.find?_cons]
    | false =>
      have h1 : l.find? aliasMatches = some t0 := by
        simpa [List.find?_cons, ha] using h
      have ht0 : aliasMatches t0 = true := List.find?_some h1
      cases hx : (pyLower a.name == pyLower t0.name) with
      | false =>
        have ih1 := ih h1
        unfold findTransition at ih1 ⊢
        simpa [List.find?_cons, hx] using ih1
      | true =>
        exfalso
        have heq : pyLower a.name = pyLower t0.name := by
          simpa using hx
        have ha1 : aliasMatches a = true := by
          unfold aliasMatches at ht0 ⊢
          rw [heq]
          exact ht0
        simp [ha] at ha1

/- ### Theorems for claim C1 -/

/-- C1 counterexample: with JIRA_BASE_URL exported in the environment and a
config file that also defines it, the resolved credentials carry the FILE
value for the base URL, not the environment value — because the loader
reads the file whenever any one of the three fields is missing and then
overwrites every field a file line mentions.  This refutes the claim that
an environment-supplied field is never overwritten by a file value. -/
theorem c1_counterexample :
    jira_load_credentials c1Env (some c1File) =
      .ok ⟨ "https://file.example".data, "a@b.c".data, "tok".data ⟩
    ∧ "https://file.example".data ≠ "https://env.example".data := by
  constructor
  · rfl
  · decide

/-- C1 (amended): when the environment supplies every credential field of a
service, the resolved credentials carry exactly the environment values and
the config file is never consulted, regardless of its contents; when the
environment leaves a field unset the file pass runs and may overwrite even
environment-supplied fields (as the counterexample shows). -/
theorem c1_theorem (env : JiraEnv) (file : List Str)
    (genv : GitlabEnv) (gfile : List Str)
    (hb : truthy env.baseUrl = true) (he : truthy env.email = true)
    (ht : truthy env.token = true) (hg : truthy genv.token = true) :
    jira_load_credentials env (some file) =
      .ok ⟨ pyRstripSlashes (env.baseUrl.getD []), env.email.getD [], env.token.getD [] ⟩
    ∧ gitlab_load_credentials genv (some gfile) =
      .ok ( pyRstripSlashes (genv.baseUrl.getD "https://gitlab.com".data)
          , genv.token.getD [] ) := by
  constructor
  · simp [jira_load_credentials, jiraFinish, jiraAll, hb, he, ht]
  · simp [gitlab_load_credentials, hg]

/-- C1 witness: the amended theorem applied to a fully exported Jira
environment, a gitlab environment with a token, and a config file that
tries to override everything. -/
theorem c1_witness :
    jira_load_credentials
        { baseUrl := some "https://env.example/".data
        , email := some "me@x.y".data, token := some "t1".data }
        (some c1File) =
      .ok ⟨ "https://env.example".data, "me@x.y".data, "t1".data ⟩
    ∧ gitlab_load_credentials
        { baseUrl := some "https://gl.example".data, token := some "t2".data }
        (some [ "GITLAB_BASE_URL=https://other.example".data ]) =
      .ok ( "https://gl.example".data, "t2".data ) := by
  have h := c1_theorem
    { baseUrl := some "https://env.example/".data
    , email := some "me@x.y".data, token := some "t1".data }
    c1File
    { baseUrl := some "https://gl.example".data, token := some "t2".data }
    [ "GITLAB_BASE_URL=https://other.example".data ]
    (by decide) (by decide) (by decide) (by decide)
  exact ⟨h.1.trans (by rfl), h.2.trans (by rfl)⟩

/- ### Theorems for claim C2 -/

/-- C2 counterexample: resolving the same raw input a second time within
one process run does issue a network call again — the second
`get_user_account_id` invocation performs one user-search request, not
zero, because the source keeps no cache of resolved identifiers. -/
theorem c2_counterexample :
    (resolveSameTwice "alice".data c2Users).2.2 = 1
    ∧ ¬ (resolveSameTwice "alice".data c2Users).2.2 = 0 := by
  exact ⟨rfl, by decide⟩

/-- C2 (amended): identifier resolution is idempotent in value — two
resolutions of the same raw input against the same directory listing
return the same canonical ID — but it is not cached: every
`get_user_account_id` invocation issues exactly one user-search call, and
a second `resolve_user` invocation issues a users.list call again unless
the input already has the ID shape (leading U, more than 8 characters),
in which case no call is ever made. -/
theorem c2_theorem (q : Str) (apiUsers : List JiraApiUser)
    (u : Str) (members : List SlackMember) :
    (resolveSameTwice q apiUsers).1 = (resolveSameTwice q apiUsers).2
    ∧ (resolveSameTwice q apiUsers).2.2 = 1
    ∧ (slackResolveUserTwice u members).1 = (slackResolveUserTwice u members).2
    ∧ (slackResolveUserTwice u members).2.2 =
        (if pyStartsWith [ 'U' ] u && decide (8 < u.length) then 0 else 1) := by
  refine ⟨rfl, ?_, rfl, ?_⟩
  · simp only [resolveSameTwice, get_user_account_id, search_users]
    cases apiUsers <;> rfl
  · simp only [slackResolveUserTwice, resolve_user]
    by_cases hc : (pyStartsWith [ 'U' ] u && decide (8 < u.length)) = true
    · simp [hc]
    · simp only [Bool.not_eq_true] at hc
      simp only [hc, if_false]
      cases h : List.find? (fun v =>
          v.name == some (pyLstrip '@' u) || v.displayName == some (pyLstrip '@' u))
          members <;> simp [h]

/- ### Theorems for claim C7 -/

/-- C7 failing input: a user whose resolution succeeds on the ID fast path
and whose conversations.open step succeeds, returning the direct-message
channel id D0123456789 (Slack DM channel ids are D-prefixed).  The send
step hands that id back to `resolve_channel`, which does not recognise it
(no leading C), treats it as a channel NAME, fails to find it in the
channel listing, and exits — no chat.postMessage call is ever attempted,
although the platform would have accepted the send.  This contradicts the
claim that the message is sent into exactly the channel returned by the
open step. -/
theorem c7_theorem :
    (send_dm "U0123456789".data "hello".data [] true "D0123456789".data [] true).result
      = .error ( "ERROR: Channel \x27D0123456789\x27 not found".data)
    ∧ (send_dm "U0123456789".data "hello".data [] true "D0123456789".data [] true).posts
      = [] := by
  exact ⟨rfl, rfl⟩

/- ### Theorems for claim C8 -/

/-- C8: an input that already matches the platform ID shape — fixed prefix
(C for channels, U for users), alphanumeric, more than 8 characters — is
returned unchanged by identifier resolution, and no network call is
issued. -/
theorem c8_theorem (ch u : Str) (members : List SlackMember)
    (channels : List SlackChannel)
    (hc : idShape 'C' ch = true) (hu : idShape 'U' u = true) :
    resolve_channel ch channels = (.ok ch, 0)
    ∧ resolve_user u members = (.ok u, 0) := by
  rw [idShape, Bool.and_eq_true, Bool.and_eq_true] at hc hu
  constructor
  · rw [resolve_channel]
    simp [hc.1.1, hc.2]
  · rw [resolve_user]
    simp [hu.1.1, hu.2]

/-- C8 witness: concrete ID-shaped inputs hitting the fast path. -/
theorem c8_witness :
    resolve_channel "C123456789".data [] = (.ok "C123456789".data, 0)
    ∧ resolve_user "U987654321".data [] = (.ok "U987654321".data, 0) := by
  have h := c8_theorem "C123456789".data "U987654321".data [] []
    (by decide) (by decide)
  exact ⟨h.1, h.2⟩

/- ### Theorems for claim C3 -/

/-- C3: when the requested transition name has no case-insensitive match in
the fetched transition list, `transition_issue` fails with the
unknown-transition error — whose text contains every available transition
name verbatim — and POSTs nothing; conversely, when it matches, the POST
carries the id of the first matching transition in listing order (for any
transition with a non-empty id, which is what the Jira API returns). -/
theorem c3_theorem (ts : List Transition) (issueKey req : Str)
    (postStatus : Nat) (comment : Option Str) :
    (findTransition ts req = none →
      (transition_issue ts issueKey req postStatus comment).result
        = .unknown (unknownTransitionMsg req ts)
      ∧ (transition_issue ts issueKey req postStatus comment).posts = []
      ∧ ∀ t ∈ ts, t.name <:+: unknownTransitionMsg req ts)
    ∧ (∀ t, findTransition ts req = some t → t.id ≠ [] →
      (transition_issue ts issueKey req postStatus comment).posts = [t.id]) := by
  constructor
  · intro h
    refine ⟨by simp [transition_issue, h], by simp [transition_issue, h], ?_⟩
    intro t ht
    have hmem : t.name ∈ ts.map (fun t => t.name) := List.mem_map_of_mem _ ht
    have hsub := pyJoin_sub_of_mem (", ".data) (ts.map (fun t => t.name)) t.name hmem
    have h1 := sub_append_left ( "\x27 not found. Available: ".data) hsub
    have h2 := sub_append_left req h1
    have h3 := sub_append_left ( "ERROR: Transition \x27".data) h2
    simpa [unknownTransitionMsg, availableText, List.append_assoc] using h3
  · intro t h hid
    unfold transition_issue
    rw [h]
    simp [hid, apply_ite TransitionOutcome.posts]

/-- C3 witness: a listing with a single transition named Done; requesting
Reopen hits the unknown-transition exit with Done verbatim in the error
text and no POST, requesting done (case-insensitively equal) POSTs id 11. -/
theorem c3_witness :
    ((transition_issue [⟨ "11".data, "Done".data⟩] "PROJ-1".data "Reopen".data
        204 none).result
      = .unknown (unknownTransitionMsg "Reopen".data [⟨ "11".data, "Done".data⟩])
    ∧ (transition_issue [⟨ "11".data, "Done".data⟩] "PROJ-1".data "Reopen".data
        204 none).posts = []
    ∧ "Done".data <:+: unknownTransitionMsg "Reopen".data [⟨ "11".data, "Done".data⟩])
    ∧ (transition_issue [⟨ "11".data, "Done".data⟩] "PROJ-1".data "done".data
        204 none).posts = [ "11".data] := by
  constructor
  · have h := (c3_theorem [⟨ "11".data, "Done".data⟩] "PROJ-1".data "Reopen".data
      204 none).1 (by decide)
    exact ⟨h.1, h.2.1, h.2.2 ⟨ "11".data, "Done".data⟩ (by decide)⟩
  · exact (c3_theorem [⟨ "11".data, "Done".data⟩] "PROJ-1".data "done".data
      204 none).2 ⟨ "11".data, "Done".data⟩ (by decide) (by decide)

/- ### Theorems for claim C4 -/

/-- C4: the update-page write payload carries version number exactly one
above the version the read step returned, and a rejected write (any
non-200 status) reports failure after exactly one read and one write —
no re-read, no retry. -/
theorem c4_theorem (current : ConfluencePage) (pageId content : Str)
    (title : Option Str) (putStatus : Nat) :
    (update_page current pageId content title putStatus).payloadVersion
      = current.version + 1
    ∧ (putStatus ≠ 200 →
        (update_page current pageId content title putStatus).result
          = .error putStatus
        ∧ (update_page current pageId content title putStatus).reads = 1
        ∧ (update_page current pageId content title putStatus).writes = 1) := by
  refine ⟨rfl, fun h => ⟨?_, rfl, rfl⟩⟩
  simp [update_page, h]

/-- C4 witness: a page at version 5 whose write is rejected with a stale
409 produces a version-6 payload and a reported failure. -/
theorem c4_witness :
    (update_page ⟨ "123".data, "T".data, 5, "old".data⟩ "123".data "new".data
        none 409).payloadVersion = 6
    ∧ (update_page ⟨ "123".data, "T".data, 5, "old".data⟩ "123".data "new".data
        none 409).result = .error 409 := by
  have h := c4_theorem ⟨ "123".data, "T".data, 5, "old".data⟩ "123".data
    "new".data none 409
  exact ⟨h.1, (h.2 (by decide)).1⟩

/- ### Theorems for claim C5 -/

/-- C5: in the create branch, an assignee name whose user search returns
zero matches does not abort the operation: the warning is printed to the
diagnostic stream, the create call still executes with a payload carrying
no assignee field, and (with the create accepted and no epic requested)
the process exits 0. -/
theorem c5_theorem (project issueType summary description : Str)
    (labels : Option Str) (name : Str) (createdKey : Option Str)
    (hname : name ≠ []) :
    (main_create project issueType summary description labels (some name)
        none [] 201 createdKey 204).warnings = [createWarnMsg name]
    ∧ (main_create project issueType summary description labels (some name)
        none [] 201 createdKey 204).payload
      = some (create_issue_payload project issueType summary description
          labels none)
    ∧ (create_issue_payload project issueType summary description
        labels none).assignee = none
    ∧ (main_create project issueType summary description labels (some name)
        none [] 201 createdKey 204).exitCode = 0 := by
  unfold main_create
  cases createdKey <;>
    simp [hname, get_user_account_id, search_users, truthy, create_issue_payload]

/-- C5 witness: creating with the unresolvable assignee Nobody warns,
builds an assignee-free payload, and exits 0. -/
theorem c5_witness :
    (main_create "PROJ".data "Task".data "Do it".data [] none
        (some "Nobody".data) none [] 201 (some "PROJ-7".data) 204).warnings
      = [createWarnMsg "Nobody".data]
    ∧ (main_create "PROJ".data "Task".data "Do it".data [] none
        (some "Nobody".data) none [] 201 (some "PROJ-7".data) 204).exitCode
      = 0 := by
  have h := c5_theorem "PROJ".data "Task".data "Do it".data [] none
    "Nobody".data (some "PROJ-7".data) (by decide)
  exact ⟨h.1, h.2.2.2⟩

/- ### Theorems for claim C6 -/

/-- C6: a user argument equal to "none" under case-insensitive comparison
routes the assign command to the unassign operation — a single PUT whose
accountId is null — and user-search resolution is never invoked. -/
theorem c6_theorem (issue user : Str) (apiUsers : List JiraApiUser)
    (putStatus : Nat) (h : pyLower user = "none".data) :
    (main_assign issue user apiUsers putStatus).searchCalls = 0
    ∧ (main_assign issue user apiUsers putStatus).assignPuts = [none] := by
  unfold main_assign
  rw [if_pos h]
  split <;> exact ⟨rfl, rfl⟩

/-- C6 witness: the mixed-case sentinel NoNe routes to the unassign PUT
with zero search calls. -/
theorem c6_witness :
    (main_assign "PROJ-1".data "NoNe".data [] 204).searchCalls = 0
    ∧ (main_assign "PROJ-1".data "NoNe".data [] 204).assignPuts = [none] :=
  c6_theorem "PROJ-1".data "NoNe".data [] 204 (by decide)

/- ### Theorems for claim C9 -/

/-- C9 counterexample: in the keys mode of jira-cli and the ids mode of
slack-cli, formatting an empty result list yields the EMPTY string, not a
no-results message — refuting the claim for those recognized modes. -/
theorem c9_counterexample :
    jira_format_output [] .keys = []
    ∧ slack_format_output [] .ids = []
    ∧ ( "No results found".data : Str) ≠ []
    ∧ ( "No results".data : Str) ≠ [] := by
  exact ⟨rfl, rfl, by decide, by decide⟩

/-- C9 (amended): the empty-result no-results message is produced in the
summary mode of both clients and in jira-cli table mode (which falls
through to the summary code for an empty list); the keys/ids modes yield
the empty string instead. -/
theorem c9_theorem :
    jira_format_output [] .summary = "No results found".data
    ∧ jira_format_output [] .table = "No results found".data
    ∧ slack_format_output [] .summary = "No results".data := by
  exact ⟨rfl, rfl, rfl⟩

/- ### Theorems for claim C10 -/

/-- C10: `clear_resolution` executes exactly the first transition in
listing order whose name case-insensitively contains one of the fixed
reopen aliases — one POST of that transition id — and reports success
naming that transition; when no transition name contains any alias it
POSTs nothing and returns the failure dictionary carrying every available
transition name.  (Transition ids are non-empty, as the Jira API supplies
them, and the POST is accepted with 204.) -/
theorem c10_theorem (ts : List Transition) (issueKey : Str)
    (postStatus : Nat) (hids : ∀ t ∈ ts, t.id ≠ [])
    (hpost : postStatus = 204) :
    (∀ t0, ts.find? aliasMatches = some t0 →
      clear_resolution ts issueKey postStatus
        = ⟨.success issueKey t0.name, [t0.id]⟩)
    ∧ (ts.find? aliasMatches = none →
      clear_resolution ts issueKey postStatus
        = ⟨.noReopen (ts.map (fun t => t.name)), []⟩) := by
  subst hpost
  constructor
  · intro t0 h
    have hfind := findTransition_fst ts t0 h
    have hmem : t0 ∈ ts := List.mem_of_find?_eq_some h
    have hid := hids t0 hmem
    unfold clear_resolution
    rw [h]
    simp [transition_issue, hfind, hid]
  · intro h
    unfold clear_resolution
    rw [h]

/-- C10 witness: a listing where the second transition name contains the
Korean in-progress alias gets that transition executed and named, and an
alias-free listing yields the failure dictionary with all names. -/
theorem c10_witness :
    clear_resolution
        [⟨ "1".data, "Done".data⟩, ⟨ "2".data, "진행 중으로 이동".data⟩]
        "PROJ-9".data 204
      = ⟨.success "PROJ-9".data "진행 중으로 이동".data, [ "2".data]⟩
    ∧ clear_resolution [⟨ "9".data, "Done".data⟩] "PROJ-9".data 204
      = ⟨.noReopen [ "Done".data], []⟩ := by
  constructor
  · exact (c10_theorem
      [⟨ "1".data, "Done".data⟩, ⟨ "2".data, "진행 중으로 이동".data⟩]
      "PROJ-9".data 204 (by decide) rfl).1
      ⟨ "2".data, "진행 중으로 이동".data⟩ (by decide)
  · exact (c10_theorem [⟨ "9".data, "Done".data⟩] "PROJ-9".data 204
      (by decide) rfl).2 (by decide)
